/-
Verification of the rag-system repository (src/app): a shallow embedding of
embed.py, main.py, query.py and monitoring.py, plus theorems settling the
frozen claims about the specification.

Modelling conventions:
- Python exceptions become `Except HTTPException`; an HTTPException carries
  a status code and a detail string, as in FastAPI.
- External capabilities (the langchain text splitter, the vector store, the
  LLM, the file system) are oracle parameters; control flow, string handling
  and error wrapping are translated from the source.
- Python `str.lower` is modelled as ASCII lowering (lowerChar), `str.strip`
  as pyStrip, `"\n".join` as join_nl, `pathlib.Path.suffix` as pathSuffix.
- The file system is a list of existing temp-file paths threaded through the
  ingestion pipeline; unlink is modelled as removal that succeeds.
-/
import Mathlib

/-! ## Python string primitives -/

/-- ASCII lowering of one character, the behaviour of Python str.lower on
the ASCII range (embed.py and main.py lowercase filenames before checks). -/
def lowerChar (c : Char) : Char :=
  if h : 65 ≤ c.toNat ∧ c.toNat ≤ 90 then
    Char.ofNatAux (c.toNat + 32) (Or.inl (by omega))
  else c

/-- Python str.strip: remove whitespace from both ends. -/
def pyStrip (s : String) : String :=
  let l := s.data.dropWhile Char.isWhitespace
  String.mk ((l.reverse.dropWhile Char.isWhitespace).reverse)

/-- Python "\n".join over a list of strings. -/
def join_nl : List String → String
  | [] => ""
  | [x] => x
  | x :: xs => x ++ "\n" ++ join_nl xs

/-- The segment of a filename after the last dot (the whole name when there
is no dot): Python filename.split(".")[-1]. -/
def afterLastDot (l : List Char) : List Char :=
  (l.reverse.takeWhile (fun c => c != '.')).reverse

/-- pathlib.Path.suffix of a bare file name: "." plus the part after the
last dot, provided that dot is neither the first nor the last character;
otherwise the empty string. -/
def pathSuffix (name : String) : String :=
  let cs := name.data
  let rt := cs.reverse.takeWhile (fun c => c != '.')
  if rt.length + 2 ≤ cs.length ∧ 0 < rt.length then
    String.mk ('.' :: rt.reverse)
  else ""

/-- The unique temp-file name built in embed.py save_file:
f"{timestamp}_{file.filename}". -/
def saveName (timestamp : Nat) (filename : String) : String :=
  toString timestamp ++ "_" ++ filename

/-! ## Shared data model -/

/-- Decidable equality of Except values, for evaluating outcomes on
concrete inputs. -/
instance {ε α : Type} [DecidableEq ε] [DecidableEq α] : DecidableEq (Except ε α) := fun a b => by
  cases a <;> cases b
  case error.error x y =>
    exact if h : x = y then .isTrue (by rw [h]) else .isFalse (by simp [h])
  case error.ok x y => exact .isFalse (by simp)
  case ok.error x y => exact .isFalse (by simp)
  case ok.ok x y =>
    exact if h : x = y then .isTrue (by rw [h]) else .isFalse (by simp [h])

/-- Whether an Except value is a success. -/
def isOkB {ε α : Type} : Except ε α → Bool
  | .ok _ => true
  | .error _ => false

/-- FastAPI HTTPException: a status code and a human-readable detail. -/
structure HTTPException where
  status_code : Nat
  detail : String
deriving DecidableEq, Repr

/-- A langchain Document as built in embed.py load_and_split_data: the chunk
text plus metadata source (the saved file name) and chunk_index. Retrieved
documents carry the same fields. -/
structure Document where
  page_content : String
  source : String
  chunk_index : Nat
deriving DecidableEq, Repr

/-- The two readings of an uploaded file body: what PyPDF2 extracts per page
when the bytes are read as a PDF, and the verbatim text when read as UTF-8
Markdown. Which one is used is decided by the suffix dispatch in
load_and_split_data. -/
structure FileData where
  pdfPages : List String
  mdText : String
deriving DecidableEq, Repr

/-- An uploaded file: original filename plus body. -/
structure UploadFile where
  filename : String
  content : FileData
deriving DecidableEq, Repr

/-! ## embed.py -/

namespace EmbedPy

/-- Environment configuration for the chunker, as read at module import
(embed.py lines 26-28); int parsing is modelled as already-parsed values. -/
structure EnvConfig where
  chunk_size_var : Option Int
  chunk_overlap_var : Option Int
deriving DecidableEq, Repr

/-- CHUNK_SIZE = int(os.getenv("CHUNK_SIZE", 1024)). -/
def CHUNK_SIZE (env : EnvConfig) : Int := env.chunk_size_var.getD 1024

/-- CHUNK_OVERLAP = int(os.getenv("CHUNK_OVERLAP", 100)). -/
def CHUNK_OVERLAP (env : EnvConfig) : Int := env.chunk_overlap_var.getD 100

/-- The whole of what module initialisation does with the chunking
configuration: it reads the two values and binds them. No comparison of
chunk_overlap against chunk_size appears anywhere in the module, so the
result is returned unconditionally. -/
def startupChunkConfig (env : EnvConfig) : Except HTTPException (Int × Int) :=
  .ok (CHUNK_SIZE env, CHUNK_OVERLAP env)

/-- embed.py allowed_file: filename.lower().endswith((".pdf", ".md")). -/
def allowed_file (filename : String) : Bool :=
  let low := filename.data.map lowerChar
  List.isSuffixOf ".pdf".data low || List.isSuffixOf ".md".data low

/-- Oracles for the effectful steps of ingestion: the timestamp used by
save_file, whether the save / vector-db init / add_documents succeed, and
the langchain splitter (a function of chunk_size, chunk_overlap and the
text, since the splitter object is built from those two settings). -/
structure EmbedOracles where
  timestamp : Nat
  saveOk : Bool
  dbOk : Bool
  storeOk : Bool
  split_text : Int → Int → String → List String

/-- embed.py load_and_split_data. The suffix dispatch uses exact
comparison with ".pdf" and ".md"; PDF text is the newline join of the pages
whose extraction is non-empty; a file whose stripped text is empty raises
HTTPException(400), which the own except-block of the function rewraps as
HTTPException(500, "Document processing failed: ..."), str() of the inner
exception printing as "status: detail". The metadata source field is the
saved file name (file_path.name). -/
def load_and_split_data (cs co : Int) (split_text : Int → Int → String → List String)
    (path : String) (content : FileData) : Except HTTPException (List Document) :=
  let text :=
    if pathSuffix path = ".pdf" then
      join_nl (content.pdfPages.filter (fun p => p != ""))
    else if pathSuffix path = ".md" then
      content.mdText
    else ""
  if pyStrip text = "" then
    .error ⟨500, "Document processing failed: 400: File does not contain readable text."⟩
  else
    .ok (((split_text cs co text).enum).map (fun p => ⟨p.2, path, p.1⟩))

/-- The dict returned by a successful process_and_store_embedding:
message plus the chunk count. -/
structure EmbedResult where
  message : String
  chunks : Nat
deriving DecidableEq, Repr

/-- embed.py process_and_store_embedding, threading the set of existing
temp files. Every exception raised in the try-block (including the 400 for a
disallowed extension) is caught by the own except-block of the function and
rewrapped as HTTPException(500, "Internal Server Error"); the finally-block
unlinks the temp file whenever file_path was assigned. -/
def process_and_store_embedding (cs co : Int) (o : EmbedOracles) (file : UploadFile)
    (fs : List String) : Except HTTPException EmbedResult × List String :=
  if allowed_file file.filename then
    if o.saveOk then
      let path := saveName o.timestamp file.filename
      let fs1 := path :: fs
      let r : Except HTTPException EmbedResult :=
        match load_and_split_data cs co o.split_text path file.content with
        | .error _ => .error ⟨500, "Internal Server Error"⟩
        | .ok documents =>
          if o.dbOk then
            if o.storeOk then .ok ⟨"File embedded successfully", documents.length⟩
            else .error ⟨500, "Internal Server Error"⟩
          else .error ⟨500, "Internal Server Error"⟩
      -- the finally-block: the saved temp file is unlinked on every exit path
      (r, fs1.erase path)
    else
      -- save_file raised; file_path was never assigned, nothing to clean up
      (.error ⟨500, "Internal Server Error"⟩, fs)
  else
    -- the 400 "Only PDF or Markdown files are allowed." is rewrapped as 500
    (.error ⟨500, "Internal Server Error"⟩, fs)

end EmbedPy

/-! ## query.py and monitoring.py -/

namespace MonitoringPy

/-- monitoring.py update_success_rate acting on the pair
(success_count, failure_count). -/
def update_success_rate (success : Bool) (st : Nat × Nat) : Nat × Nat :=
  if success then (st.1 + 1, st.2) else (st.1, st.2 + 1)

/-- monitoring.py get_monitoring_status: returns the two counters and
nothing else. -/
def get_monitoring_status (st : Nat × Nat) : Nat × Nat := st

/-- The counter state after a sequence of update_success_rate calls. -/
def countsAfter (events : List Bool) (st : Nat × Nat) : Nat × Nat :=
  events.foldl (fun s b => update_success_rate b s) st

end MonitoringPy

namespace QueryPy

/-- The per-document citation line built in query.py: documents stored by
this system always carry both metadata keys, so the .get defaults
("Unknown Source" / "Unknown Chunk") never fire. -/
def source_line (d : Document) : String :=
  "Source: " ++ d.source ++ " (Chunk " ++ toString d.chunk_index ++ ")"

/-- The ANSWER_PROMPT template of get_prompt, instantiated. -/
def answer_prompt (context question : String) : String :=
  "Answer the question using ONLY the following context:\n"
    ++ context ++ "\nQuestion: " ++ question

/-- The deduplication key: the metadata pair (source, chunk_index). -/
def dedupKey (d : Document) : String × Nat := (d.source, d.chunk_index)

/-- First-seen-order deduplication by key, with an accumulator of keys
already emitted. -/
def dedupAux : List Document → List (String × Nat) → List Document
  | [], _ => []
  | d :: ds, seen =>
    if dedupKey d ∈ seen then dedupAux ds seen
    else d :: dedupAux ds (dedupKey d :: seen)

/-- Modelled from the spec: the merge-and-deduplicate step of the retriever
(spec 4.5). The code delegates it to langchain MultiQueryRetriever, which is
not part of this repository; per the spec the sub-query result lists are
concatenated in expansion order and deduplicated by the pair
(source, chunk_index), keeping first-seen occurrence order. -/
def mergeDedup (results : List (List Document)) : List Document :=
  dedupAux results.flatten []

/-- Oracles for the effectful steps of query.py: the retriever invocation
(MultiQueryRetriever: query expansion plus per-query vector search plus
merge), the answering LLM, and whether StrOutputParser succeeds. -/
structure QueryOracles where
  retrieve : String → List Document
  synth : String → String
  parseOk : String → Bool

/-- The dict returned by a successful query(): response, context, sources
and token_usage (the token_usage attribute probe always fails for a plain
response, leaving the default 0); response_time is wall-clock and omitted. -/
structure QueryResult where
  response : String
  context : String
  sources : String
  token_usage : Nat
deriving DecidableEq, Repr

/-- Observable outcome of one query() call: the returned dict or the raised
exception, whether the MultiQueryRetriever (and with it the query-expansion
LLM) was invoked, whether the answering LLM was invoked, and the sequence of
update_success_rate calls made. -/
structure QueryTrace where
  result : Except HTTPException QueryResult
  expanderInvoked : Bool
  synthInvoked : Bool
  monitorEvents : List Bool

/-- query.py query(). The empty-input check is Python truthiness (only the
empty string is falsy), raised before the try-block; inside the try-block,
an empty joined context raises HTTPException(404, "No relevant information
found."), which the own except-block of query rewraps as a 500 whose detail
embeds str() of the 404; a successful run calls update_success_rate(True)
exactly once. -/
def query (o : QueryOracles) (input_text : String) : QueryTrace :=
  if input_text = "" then
    ⟨.error ⟨400, "Query input is empty"⟩, false, false, []⟩
  else
    let retrieved_docs := o.retrieve input_text
    let context_text := join_nl (retrieved_docs.map Document.page_content)
    let sources := join_nl (retrieved_docs.map source_line)
    if context_text = "" then
      ⟨.error ⟨500, "Query processing failed: 404: No relevant information found."⟩,
        true, false, []⟩
    else
      let response := o.synth (answer_prompt context_text input_text)
      let parsed :=
        if o.parseOk response then response
        else "Error: Unable to parse response from the model."
      ⟨.ok ⟨parsed, context_text, sources, 0⟩, true, true, [true]⟩

end QueryPy

/-! ## main.py -/

namespace MainPy

/-- ALLOWED_EXTENSIONS = ["pdf", "md"]. -/
def ALLOWED_EXTENSIONS : List (List Char) := ["pdf".data, "md".data]

/-- main.py allowed_file: filename.split(".")[-1].lower() in
ALLOWED_EXTENSIONS. -/
def allowed_file (filename : String) : Bool :=
  let seg := (afterLastDot filename.data).map lowerChar
  ALLOWED_EXTENSIONS.contains seg

/-- The dict returned by route_embed on success: only a message. The chunk
count computed by process_and_store_embedding is discarded. -/
structure RouteEmbedResponse where
  message : String
deriving DecidableEq, Repr

/-- main.py route_embed. The extension check and its 400 run before the
try-block; any failure of the inner embedding surfaces as
HTTPException(500, "Internal Server Error"). A successful inner result is a
non-empty dict, hence truthy, so the route returns its own message dict. -/
def route_embed (cs co : Int) (o : EmbedPy.EmbedOracles) (file : UploadFile)
    (fs : List String) : Except HTTPException RouteEmbedResponse × List String :=
  if allowed_file file.filename then
    match EmbedPy.process_and_store_embedding cs co o file fs with
    | (.ok _, fs2) => (.ok ⟨"File embedded successfully"⟩, fs2)
    | (.error _, fs2) => (.error ⟨500, "Internal Server Error"⟩, fs2)
  else
    (.error ⟨400, "File type not allowed. Only PDF and Markdown are supported."⟩, fs)

/-- The dict returned by route_query on success: response and context
(response_time is wall-clock and omitted); sources and token_usage from the
inner result are not forwarded. -/
structure RouteQueryResponse where
  response : String
  context : String
deriving DecidableEq, Repr

/-- Observable outcome of one route_query call. -/
structure RouteTrace where
  result : Except HTTPException RouteQueryResponse
  monitorEvents : List Bool

/-- main.py route_query. The dict returned by query() never contains the
key "evaluation_metrics", so the conditional extra update_success_rate call
never fires; the keys "response" and "context" are always present on
success; every exception thrown by query() (including its 400 for empty
input) is caught by the blanket except-block and surfaced as
HTTPException(500, "Internal Server Error"). -/
def route_query (o : QueryPy.QueryOracles) (q : String) : RouteTrace :=
  let t := QueryPy.query o q
  match t.result with
  | .ok r => ⟨.ok ⟨r.response, r.context⟩, t.monitorEvents⟩
  | .error _ => ⟨.error ⟨500, "Internal Server Error"⟩, t.monitorEvents⟩

end MainPy

/-! ## Concrete inputs used by witnesses and counterexamples -/

/-- A splitter that returns the whole text as one chunk (the behaviour of
the real splitter on text shorter than chunk_size). -/
def exSplit : Int → Int → String → List String := fun _ _ t => [t]

/-- A splitter that echoes the chunk_size and chunk_overlap it received in
front of the text, making the parameter flow visible in the output. -/
def exSplitRec : Int → Int → String → List String :=
  fun cs co t => [toString cs ++ "|" ++ toString co ++ "|" ++ t]

/-- Ingestion oracles: fixed timestamp, every effect succeeds. -/
def exEmbedOracles : EmbedPy.EmbedOracles := ⟨1700, true, true, true, exSplit⟩

/-- A small valid Markdown upload. -/
def exMdFile : UploadFile := ⟨"hello.md", ⟨[], "The sky is blue."⟩⟩

/-- A PDF upload whose extension matches ".pdf" only case-insensitively. -/
def exPdfUpper : UploadFile := ⟨"report.PDF", ⟨["The sky is blue."], ""⟩⟩

/-- Query oracles under which retrieval finds nothing. -/
def exQueryOracles : QueryPy.QueryOracles := ⟨fun _ => [], fun _ => "ans", fun _ => true⟩

/-- Query oracles under which retrieval finds one document. -/
def exQueryOraclesHit : QueryPy.QueryOracles :=
  ⟨fun _ => [⟨"The sky is blue.", "1700_hello.md", 0⟩], fun _ => "ans", fun _ => true⟩

/-- Two documents sharing a dedup key, and a distinct third. -/
def exDocA : Document := ⟨"alpha", "a.md", 3⟩

/-- Same chunk as exDocA retrieved by another sub-query (same key). -/
def exDocA2 : Document := ⟨"alpha", "a.md", 3⟩

/-- A different chunk of the same file. -/
def exDocB : Document := ⟨"beta", "a.md", 4⟩

/-- The merged sub-query results used by the C1 witness. -/
def exResults : List (List Document) := [[exDocA, exDocB], [exDocA2, exDocB]]

/-! ## Helper lemmas -/

/-- Two booleans agreeing as propositions are equal. -/
theorem bool_eq_of_iff (a b : Bool) (h : a = true ↔ b = true) : a = b := by
  cases a <;> cases b <;> simp_all

/-- On an upper-case ASCII letter, lowerChar adds 32 to the code point. -/
theorem lowerChar_toNat_of_upper (c : Char) (h : 65 ≤ c.toNat ∧ c.toNat ≤ 90) :
    (lowerChar c).toNat = c.toNat + 32 := by
  unfold lowerChar
  rw [dif_pos h]
  rfl

/-- Lowering never creates or destroys a dot. -/
theorem lowerChar_eq_dot_iff (c : Char) : lowerChar c = '.' ↔ c = '.' := by
  constructor
  · intro h
    by_cases hc : 65 ≤ c.toNat ∧ c.toNat ≤ 90
    · exfalso
      have ht := lowerChar_toNat_of_upper c hc
      rw [h] at ht
      have h46 : ('.' : Char).toNat = 46 := by decide
      rw [h46] at ht
      omega
    · unfold lowerChar at h
      rwa [dif_neg hc] at h
  · intro h
    subst h
    decide

/-- Boolean form: the dot test commutes with lowering. -/
theorem lowerChar_bne_dot (c : Char) : (lowerChar c != '.') = (c != '.') := by
  have hbeq : (lowerChar c == '.') = (c == '.') :=
    bool_eq_of_iff _ _ (by simp [lowerChar_eq_dot_iff])
  simp [bne, hbeq]

/-- Taking the dot-free head segment commutes with lowering. -/
theorem map_lowerChar_takeWhile (l : List Char) :
    (l.takeWhile (fun c => c != '.')).map lowerChar
      = (l.map lowerChar).takeWhile (fun c => c != '.') := by
  induction l with
  | nil => rfl
  | cons c cs ih =>
    simp only [List.map_cons, List.takeWhile_cons, lowerChar_bne_dot]
    by_cases hc : (c != '.') = true
    · simp [hc, ih]
    · simp [hc]

/-- In a character list containing a dot, the segment before the first dot
equals a dot-free pattern exactly when the pattern followed by a dot is a
list head. -/
theorem takeWhile_eq_iff_dotted (l : List Char) : ∀ p : List Char,
    (∀ c ∈ p, c ≠ '.') → ('.' : Char) ∈ l →
    (l.takeWhile (fun c => c != '.') = p ↔ List.isPrefixOf (p ++ ['.']) l = true) := by
  induction l with
  | nil => intro p _ hl; cases hl
  | cons c cs ih =>
    intro p hp hl
    by_cases hc : c = '.'
    · subst hc
      cases p with
      | nil => simp [List.takeWhile_cons, List.isPrefixOf_cons₂, List.isPrefixOf_nil_left]
      | cons a p' =>
        have ha : a ≠ '.' := hp a (List.mem_cons_self _ _)
        simp [List.takeWhile_cons, List.isPrefixOf_cons₂, ha]
    · have hl' : ('.' : Char) ∈ cs := by
        rcases List.mem_cons.mp hl with hh | hh
        · exact absurd hh.symm hc
        · exact hh
      cases p with
      | nil =>
        simp [List.takeWhile_cons, List.isPrefixOf_cons₂, hc, Ne.symm hc]
      | cons a p' =>
        have hp' : ∀ x ∈ p', x ≠ '.' := fun x hx => hp x (List.mem_cons_of_mem _ hx)
        simp only [List.takeWhile_cons, List.cons_append, List.isPrefixOf_cons₂]
        rw [if_pos (by simp [hc])]
        simp only [List.cons.injEq, Bool.and_eq_true, beq_iff_eq]
        constructor
        · rintro ⟨rfl, h2⟩
          exact ⟨rfl, (ih p' hp' hl').mp h2⟩
        · rintro ⟨rfl, h2⟩
          exact ⟨rfl, (ih p' hp' hl').mpr h2⟩

/-- Characterisation of the main.py check on the reversed lowered name:
the segment before the first dot of the reversal is a reversed allowed
extension. -/
theorem main_allowed_iff (f : String) :
    MainPy.allowed_file f = true ↔
      ((f.data.reverse.map lowerChar).takeWhile (fun c => c != '.') = "pdf".data.reverse
       ∨ (f.data.reverse.map lowerChar).takeWhile (fun c => c != '.') = "md".data.reverse) := by
  unfold MainPy.allowed_file MainPy.ALLOWED_EXTENSIONS afterLastDot
  simp only [List.contains_eq_any_beq, List.any_cons, List.any_nil, Bool.or_eq_true,
    Bool.or_false, beq_iff_eq, List.map_reverse, map_lowerChar_takeWhile,
    List.reverse_eq_iff, or_false]

/-- Characterisation of the embed.py check on the reversed lowered name:
a reversed dotted extension is a head of the reversal. -/
theorem embed_allowed_iff (f : String) :
    EmbedPy.allowed_file f = true ↔
      (List.isPrefixOf (".pdf".data.reverse) (f.data.reverse.map lowerChar) = true
       ∨ List.isPrefixOf (".md".data.reverse) (f.data.reverse.map lowerChar) = true) := by
  unfold EmbedPy.allowed_file
  simp only [List.isSuffixOf, Bool.or_eq_true, List.map_reverse]

/-- dedupAux returns a sublist of its input. -/
theorem dedupAux_sublist (l : List Document) (seen : List (String × Nat)) :
    (QueryPy.dedupAux l seen).Sublist l := by
  induction l generalizing seen with
  | nil => simp [QueryPy.dedupAux]
  | cons d ds ih =>
    simp only [QueryPy.dedupAux]
    split
    · exact (ih seen).cons d
    · exact (ih _).cons₂ d

/-- The keys of the dedupAux output are distinct and disjoint from the
already-seen keys. -/
theorem dedupAux_nodup_keys (l : List Document) (seen : List (String × Nat)) :
    ((QueryPy.dedupAux l seen).map QueryPy.dedupKey).Nodup
    ∧ ∀ k ∈ (QueryPy.dedupAux l seen).map QueryPy.dedupKey, k ∉ seen := by
  induction l generalizing seen with
  | nil => simp [QueryPy.dedupAux]
  | cons d ds ih =>
    simp only [QueryPy.dedupAux]
    split
    · exact ih seen
    case isFalse hmem =>
      obtain ⟨ihn, ihs⟩ := ih (QueryPy.dedupKey d :: seen)
      refine ⟨?_, ?_⟩
      · simp only [List.map_cons, List.nodup_cons]
        exact ⟨fun hk => absurd (List.mem_cons_self _ _) (ihs _ hk), ihn⟩
      · intro k hk
        simp only [List.map_cons, List.mem_cons] at hk
        rcases hk with hk | hk
        · subst hk; exact hmem
        · exact fun hks => (ihs k hk) (List.mem_cons_of_mem _ hks)

/-- Every key occurring in the input and not already seen occurs among the
keys of the dedupAux output. -/
theorem dedupAux_mem_keys (l : List Document) (seen : List (String × Nat))
    (d : Document) (hd : d ∈ l) (hk : QueryPy.dedupKey d ∉ seen) :
    QueryPy.dedupKey d ∈ (QueryPy.dedupAux l seen).map QueryPy.dedupKey := by
  induction l generalizing seen with
  | nil => cases hd
  | cons e es ih =>
    simp only [QueryPy.dedupAux]
    rcases List.mem_cons.mp hd with rfl | hd'
    · split
      case isTrue hmem => exact absurd hmem hk
      case isFalse hmem => simp
    · split
      case isTrue hmem => exact ih seen hd' hk
      case isFalse hmem =>
        by_cases hkey : QueryPy.dedupKey d = QueryPy.dedupKey e
        · simp [hkey]
        · simp only [List.map_cons, List.mem_cons]
          exact Or.inr (ih _ hd'
            (fun hmem2 => (List.mem_cons.mp hmem2).elim hkey hk))

/-- For a key not already seen, the representative found in the dedupAux
output is the first-seen occurrence in the input. -/
theorem dedupAux_find (l : List Document) (seen : List (String × Nat))
    (k : String × Nat) (hk : k ∉ seen) :
    (QueryPy.dedupAux l seen).find? (fun d => decide (QueryPy.dedupKey d = k))
      = l.find? (fun d => decide (QueryPy.dedupKey d = k)) := by
  induction l generalizing seen with
  | nil => rfl
  | cons e es ih =>
    simp only [QueryPy.dedupAux]
    split
    case isTrue hmem =>
      have hne : ¬ QueryPy.dedupKey e = k := fun heq => hk (heq ▸ hmem)
      rw [List.find?_cons_of_neg _ (by simp [hne]), ih seen hk]
    case isFalse hmem =>
      by_cases heq : QueryPy.dedupKey e = k
      · rw [List.find?_cons_of_pos _ (by simp [heq]),
          List.find?_cons_of_pos _ (by simp [heq])]
      · rw [List.find?_cons_of_neg _ (by simp [heq]),
          List.find?_cons_of_neg _ (by simp [heq]),
          ih _ (fun hmem2 => (List.mem_cons.mp hmem2).elim (fun h => heq h.symm) hk)]

/-! ## Claim C1 -/

/-- Claim C1: the merged, deduplicated retriever output (modelled from the
spec, since the merge lives in the langchain MultiQueryRetriever) contains
each distinct (source, chunk_index) key at most once (Nodup); it keeps
first-seen occurrence order across the concatenated sub-query results (it
is a sublist of the concatenation, and the representative of every key is
the first-seen occurrence); and no retrieved chunk is lost (every key of
the concatenation appears). The assembled context and citation list are the
newline joins over this deduplicated list, so they mention each distinct
chunk at most once. -/
theorem c1_retriever_dedup (results : List (List Document)) :
    ((QueryPy.mergeDedup results).map QueryPy.dedupKey).Nodup
    ∧ (QueryPy.mergeDedup results).Sublist results.flatten
    ∧ (∀ d ∈ results.flatten,
        QueryPy.dedupKey d ∈ (QueryPy.mergeDedup results).map QueryPy.dedupKey)
    ∧ ∀ k : String × Nat,
        (QueryPy.mergeDedup results).find? (fun d => decide (QueryPy.dedupKey d = k))
          = results.flatten.find? (fun d => decide (QueryPy.dedupKey d = k)) := by
  refine ⟨(dedupAux_nodup_keys _ _).1, dedupAux_sublist _ _, ?_, ?_⟩
  · intro d hd
    exact dedupAux_mem_keys _ _ _ hd (by simp)
  · intro k
    exact dedupAux_find _ _ _ (by simp)

/-- Claim C1 witness: two sub-query result lists both containing the chunk
(a.md, 3); the merged output keeps it exactly once, in first-seen order. -/
theorem c1_witness :
    QueryPy.mergeDedup exResults = [exDocA, exDocB]
    ∧ QueryPy.dedupKey exDocA ∈ (QueryPy.mergeDedup exResults).map QueryPy.dedupKey := by
  refine ⟨by decide, ?_⟩
  exact (c1_retriever_dedup exResults).2.2.1 exDocA (by decide)

/-! ## Claim C2 -/

/-- Claim C2 counterexample: a whitespace-only question (" ") is not
rejected by the emptiness guard, so the MultiQueryRetriever (and with it the
query-expansion LLM) is invoked; and even for the genuinely empty string,
the HTTP route surfaces the failure as a 500 "Internal Server Error", not as
a 400-equivalent client error. -/
theorem c2_counterexample :
    (QueryPy.query exQueryOracles " ").expanderInvoked = true
    ∧ (MainPy.route_query exQueryOracles "").result
        = .error ⟨500, "Internal Server Error"⟩ := by
  constructor
  · rfl
  · rfl

/-- Claim C2 amended: only the exactly empty question string fails
immediately with the EmptyQuery error (HTTPException 400, "Query input is
empty"), without invoking the QueryExpander or the answering LLM; the HTTP
route converts that failure into a 500 "Internal Server Error". Whitespace-only
but non-empty strings are not rejected. -/
theorem c2_empty_query_amended (o : QueryPy.QueryOracles) :
    (QueryPy.query o "").result = .error ⟨400, "Query input is empty"⟩
    ∧ (QueryPy.query o "").expanderInvoked = false
    ∧ (QueryPy.query o "").synthInvoked = false
    ∧ (MainPy.route_query o "").result = .error ⟨500, "Internal Server Error"⟩ :=
  ⟨rfl, rfl, rfl, rfl⟩

/-! ## Claim C3 -/

/-- Claim C3 (code bug): on a successful ingestion of an allowed file the
inner pipeline process_and_store_embedding returns the dict
(message, chunks), but the ingestion entrypoint route_embed discards it and
returns a dict whose only field is message: the chunks count never reaches
the caller. -/
theorem c3_route_embed_drops_chunks :
    (EmbedPy.process_and_store_embedding 1024 100 exEmbedOracles exMdFile []).1
      = .ok ⟨"File embedded successfully", 1⟩
    ∧ (MainPy.route_embed 1024 100 exEmbedOracles exMdFile []).1
      = .ok ⟨"File embedded successfully"⟩ := by
  constructor
  · rfl
  · rfl

/-! ## Claim C4 -/

/-- Claim C4: when retrieval returns zero chunks, query() fails on the
NoRelevantContext condition (the 404 "No relevant information found.",
rewrapped by the blanket handler of query as a 500 whose detail embeds it)
and the answer-generation LLM is never invoked. -/
theorem c4_no_context_no_synth (o : QueryPy.QueryOracles) (input : String)
    (hne : input ≠ "") (hempty : o.retrieve input = []) :
    (QueryPy.query o input).result
      = .error ⟨500, "Query processing failed: 404: No relevant information found."⟩
    ∧ (QueryPy.query o input).synthInvoked = false := by
  simp [QueryPy.query, hne, hempty, join_nl]

/-- Claim C4 witness at a concrete question and an empty retrieval. -/
theorem c4_witness :
    (QueryPy.query exQueryOracles "q").result
      = .error ⟨500, "Query processing failed: 404: No relevant information found."⟩
    ∧ (QueryPy.query exQueryOracles "q").synthInvoked = false :=
  c4_no_context_no_synth exQueryOracles "q" (by decide) rfl

/-! ## Claim C5 -/

/-- Claim C5 counterexample: a completed query that failed (retrieval found
nothing) performs no update_success_rate call at all, so neither counter
moves: failure_count is not incremented by one as the claim states. -/
theorem c5_counterexample :
    isOkB (MainPy.route_query exQueryOracles "q").result = false
    ∧ MonitoringPy.countsAfter (MainPy.route_query exQueryOracles "q").monitorEvents (0, 0)
        = (0, 0) := by
  constructor
  · rfl
  · rfl

/-- Claim C5 amended: a successfully completed query increments
success_count exactly once (query.py calls update_success_rate(True) once;
the conditional second call in route_query never fires because the result
dict never carries "evaluation_metrics"); a failed query performs no update,
so failure_count is never incremented; the counters are exposed read-only by
get_monitoring_status. -/
theorem c5_tally_amended (o : QueryPy.QueryOracles) (q : String) (s f : Nat) :
    MonitoringPy.get_monitoring_status
        (MonitoringPy.countsAfter (MainPy.route_query o q).monitorEvents (s, f))
      = if isOkB (MainPy.route_query o q).result then (s + 1, f) else (s, f) := by
  by_cases hq : q = ""
  · simp [MainPy.route_query, QueryPy.query, hq, MonitoringPy.countsAfter,
      MonitoringPy.get_monitoring_status, isOkB]
  · by_cases hctx : join_nl ((o.retrieve q).map Document.page_content) = ""
    · simp [MainPy.route_query, QueryPy.query, hq, hctx, MonitoringPy.countsAfter,
        MonitoringPy.get_monitoring_status, isOkB]
    · simp [MainPy.route_query, QueryPy.query, hq, hctx, MonitoringPy.countsAfter,
        MonitoringPy.get_monitoring_status, MonitoringPy.update_success_rate, isOkB]

/-! ## Claim C6 -/

/-- Claim C6: whenever the uploaded file was persisted to its temporary
path (the extension was allowed and the save succeeded), the temporary file
is removed before process_and_store_embedding returns, on every exit path:
the final file-system state equals the initial one, and the saved path is
absent from it. The universally quantified oracles cover success as well as
failure of document loading, vector-db initialisation and storage. -/
theorem c6_temp_file_cleanup (cs co : Int) (o : EmbedPy.EmbedOracles) (file : UploadFile)
    (fs : List String)
    (hallow : EmbedPy.allowed_file file.filename = true)
    (hsave : o.saveOk = true)
    (hnew : saveName o.timestamp file.filename ∉ fs) :
    (EmbedPy.process_and_store_embedding cs co o file fs).2 = fs
    ∧ saveName o.timestamp file.filename
        ∉ (EmbedPy.process_and_store_embedding cs co o file fs).2 := by
  have h2 : (EmbedPy.process_and_store_embedding cs co o file fs).2 = fs := by
    simp [EmbedPy.process_and_store_embedding, hallow, hsave]
  exact ⟨h2, by rw [h2]; exact hnew⟩

/-- Claim C6 witness: ingesting a valid Markdown file into an empty temp
folder leaves the temp folder empty. -/
theorem c6_witness :
    (EmbedPy.process_and_store_embedding 1024 100 exEmbedOracles exMdFile []).2 = []
    ∧ saveName 1700 "hello.md"
        ∉ (EmbedPy.process_and_store_embedding 1024 100 exEmbedOracles exMdFile []).2 :=
  c6_temp_file_cleanup 1024 100 exEmbedOracles exMdFile [] (by decide) rfl (by simp)

/-! ## Claim C7 -/

/-- Claim C7: whatever chunk list the splitter produces, the documents
built by load_and_split_data carry chunk_index values equal to their
position: the index list is exactly range(len), hence 0-based, strictly
increasing with no gaps, and unique; and every document carries the same
source name, so the indices are unique within it. -/
theorem c7_chunk_indices (cs co : Int) (split : Int → Int → String → List String)
    (path : String) (content : FileData) (docs : List Document)
    (h : EmbedPy.load_and_split_data cs co split path content = .ok docs) :
    docs.map Document.chunk_index = List.range docs.length
    ∧ ∀ d ∈ docs, d.source = path := by
  have key : ∀ chunks : List String,
      (((chunks.enum).map (fun p => (⟨p.2, path, p.1⟩ : Document))).map Document.chunk_index
        = List.range ((chunks.enum).map (fun p => (⟨p.2, path, p.1⟩ : Document))).length)
      ∧ ∀ d ∈ (chunks.enum).map (fun p => (⟨p.2, path, p.1⟩ : Document)),
          d.source = path := by
    intro chunks
    constructor
    · rw [List.map_map, List.length_map]
      have hc : (Document.chunk_index ∘ fun p : Nat × String =>
          (⟨p.2, path, p.1⟩ : Document)) = Prod.fst := rfl
      rw [hc, List.enum_map_fst, List.enum_length]
    · intro d hd
      simp only [List.mem_map] at hd
      obtain ⟨p, _, hp⟩ := hd
      rw [← hp]
  simp only [EmbedPy.load_and_split_data] at h
  split at h
  · split at h
    · exact absurd h (by simp)
    · rw [Except.ok.injEq] at h; subst h; exact key _
  · split at h
    · split at h
      · exact absurd h (by simp)
      · rw [Except.ok.injEq] at h; subst h; exact key _
    · split at h
      · exact absurd h (by simp)
      · rw [Except.ok.injEq] at h; subst h; exact key _

/-- Claim C7 witness at a one-chunk Markdown ingestion. -/
theorem c7_witness :
    ([⟨"The sky is blue.", "1700_hello.md", 0⟩] : List Document).map Document.chunk_index
      = List.range 1
    ∧ ∀ d ∈ ([⟨"The sky is blue.", "1700_hello.md", 0⟩] : List Document),
        d.source = "1700_hello.md" :=
  c7_chunk_indices 1024 100 exSplit "1700_hello.md" ⟨[], "The sky is blue."⟩ _ rfl

/-! ## Claim C8 -/

/-- Claim C8 counterexample: with chunk_size = chunk_overlap = 100 the
module initialisation of embed.py succeeds (it reads the two values and
validates nothing), and an ingestion then invokes the chunker with exactly
those parameters: a splitter oracle that echoes its parameters shows the
values 100 and 100 reaching it. -/
theorem c8_counterexample :
    EmbedPy.startupChunkConfig ⟨some 100, some 100⟩ = .ok (100, 100)
    ∧ EmbedPy.load_and_split_data 100 100 exSplitRec "1700_hello.md"
        ⟨[], "The sky is blue."⟩
      = .ok [⟨"100|100|The sky is blue.", "1700_hello.md", 0⟩] := by
  constructor
  · rfl
  · rfl

/-- Claim C8 amended: the code never validates chunk_overlap against
chunk_size. Module initialisation reads the two values and succeeds for
every configuration, and even a configuration with
chunk_overlap >= chunk_size is passed per ingestion call to the chunker,
which is invoked normally. -/
theorem c8_no_startup_validation :
    (∀ env : EmbedPy.EnvConfig,
      EmbedPy.startupChunkConfig env
        = .ok (EmbedPy.CHUNK_SIZE env, EmbedPy.CHUNK_OVERLAP env))
    ∧ ∀ (cs co : Int) (split : Int → Int → String → List String)
        (path : String) (content : FileData),
        cs ≤ co → pathSuffix path = ".md" → pyStrip content.mdText ≠ "" →
        EmbedPy.load_and_split_data cs co split path content
          = .ok (((split cs co content.mdText).enum).map
              (fun p => ⟨p.2, path, p.1⟩)) := by
  constructor
  · intro env; rfl
  · intro cs co split path content _ hmd hne
    have hpdf : pathSuffix path ≠ ".pdf" := by rw [hmd]; decide
    simp [EmbedPy.load_and_split_data, hpdf, hmd, hne]

/-- Claim C8 amended witness: chunk_size 100, chunk_overlap 100, a readable
Markdown file; the chunker runs and produces the single chunk. -/
theorem c8_witness :
    EmbedPy.load_and_split_data 100 100 exSplit "1700_hello.md" ⟨[], "The sky is blue."⟩
      = .ok [⟨"The sky is blue.", "1700_hello.md", 0⟩] :=
  (c8_no_startup_validation).2 100 100 exSplit "1700_hello.md" ⟨[], "The sky is blue."⟩
    (by decide) (by decide) (by decide)

/-! ## Claim C9 -/

/-- Claim C9 counterexample: on the dot-free filename "pdf" the two checks
disagree: main.py takes the segment after the last dot, which is the whole
name, lowers it and finds it in the allowed list, while embed.py requires
the dotted suffix ".pdf" and rejects. -/
theorem c9_counterexample :
    MainPy.allowed_file "pdf" = true ∧ EmbedPy.allowed_file "pdf" = false := by
  constructor
  · rfl
  · rfl

/-- Claim C9 amended: the two extension checks return the same verdict for
every filename containing at least one dot; they can disagree only on
dot-free filenames (those whose lowered text is exactly "pdf" or "md", which
main.py accepts and embed.py rejects). -/
theorem c9_dotted_agreement (f : String) (h : ('.' : Char) ∈ f.data) :
    MainPy.allowed_file f = EmbedPy.allowed_file f := by
  apply bool_eq_of_iff
  rw [main_allowed_iff, embed_allowed_iff]
  have hr : ('.' : Char) ∈ f.data.reverse := List.mem_reverse.mpr h
  have hrl : ('.' : Char) ∈ f.data.reverse.map lowerChar :=
    List.mem_map.mpr ⟨'.', hr, by decide⟩
  refine or_congr ?_ ?_
  · have hkey := takeWhile_eq_iff_dotted (f.data.reverse.map lowerChar)
      ("pdf".data.reverse) (by decide) hrl
    have heq : ("pdf".data.reverse ++ ['.'] : List Char) = ".pdf".data.reverse := by decide
    rw [heq] at hkey
    exact hkey
  · have hkey := takeWhile_eq_iff_dotted (f.data.reverse.map lowerChar)
      ("md".data.reverse) (by decide) hrl
    have heq : ("md".data.reverse ++ ['.'] : List Char) = ".md".data.reverse := by decide
    rw [heq] at hkey
    exact hkey

/-- Claim C9 amended witness at a dotted filename. -/
theorem c9_witness : MainPy.allowed_file "a.pdf" = EmbedPy.allowed_file "a.pdf" :=
  c9_dotted_agreement "a.pdf" (by decide)

/-! ## Claim C10 -/

/-- Claim C10: an uploaded file whose extension matches an allowed one only
case-insensitively (accepted by embed.py allowed_file, yet whose saved
path suffix is neither exactly ".pdf" nor exactly ".md") always makes
load_and_split_data extract no text and fail with the unreadable-document
error (the 400 "File does not contain readable text.", rewrapped as a 500
by the handler of load_and_split_data), whatever readable content the file
has; the surrounding ingestion attempt therefore fails. -/
theorem c10_case_mismatch_unreadable (cs co : Int) (o : EmbedPy.EmbedOracles)
    (file : UploadFile) (fs : List String)
    (hallow : EmbedPy.allowed_file file.filename = true)
    (hpdf : pathSuffix (saveName o.timestamp file.filename) ≠ ".pdf")
    (hmd : pathSuffix (saveName o.timestamp file.filename) ≠ ".md")
    (hsave : o.saveOk = true) :
    EmbedPy.load_and_split_data cs co o.split_text (saveName o.timestamp file.filename)
        file.content
      = .error ⟨500, "Document processing failed: 400: File does not contain readable text."⟩
    ∧ (EmbedPy.process_and_store_embedding cs co o file fs).1
      = .error ⟨500, "Internal Server Error"⟩ := by
  have hload : EmbedPy.load_and_split_data cs co o.split_text
      (saveName o.timestamp file.filename) file.content
      = .error ⟨500, "Document processing failed: 400: File does not contain readable text."⟩ := by
    simp only [EmbedPy.load_and_split_data]
    rw [if_neg hpdf, if_neg hmd]
    rfl
  refine ⟨hload, ?_⟩
  simp [EmbedPy.process_and_store_embedding, hallow, hsave, hload]

/-- Claim C10 witness: "report.PDF" passes the embed.py extension check,
its saved path suffix ".PDF" matches neither dispatch arm, and the
ingestion fails although the PDF pages contain readable text. -/
theorem c10_witness :
    EmbedPy.load_and_split_data 1024 100 exSplit "1700_report.PDF" exPdfUpper.content
      = .error ⟨500, "Document processing failed: 400: File does not contain readable text."⟩
    ∧ (EmbedPy.process_and_store_embedding 1024 100 exEmbedOracles exPdfUpper []).1
      = .error ⟨500, "Internal Server Error"⟩ :=
  c10_case_mismatch_unreadable 1024 100 exEmbedOracles exPdfUpper [] (by decide)
    (by decide) (by decide) rfl

